import Mathlib

/-!
# Verification of the EV / devigging engine

Shallow embedding of the repository's core numeric and orchestration code:

* `src/logic/devig.ts` — the devigging engine (`devigOdds` and the five
  method functions);
* `src/logic/ev.ts` — market resolution and EV orchestration
  (`findSpecificOffer`, `hasCompleteMarket`, `findAvailableSharpBooks`,
  `findTargetOutcomes`, `extractAmericanOdds`,
  `calculateAverageTrueProbability`, `calculateEVFromOffer`);
* `src/logic/batch.ts` — the batch orchestrator (`calculateEVBatch`,
  `createAllErrorsBatchResponse`);
* `src/utils/odds.ts` — odds conversion utilities;
* `src/server.ts` — `calculateKellyFraction`.

JavaScript numbers are embedded as real numbers (`ℝ`); the market line,
which the source stores as a string and compares numerically via
`parseFloat`, is carried as its parsed numeric value (`ℚ`).  Fallible
operations return an explicit `Result` sum type mirroring the source's
`{ success: true, value } | { success: false, error }` discriminated union.
-/

namespace EV

/-- The tagged success/failure union used throughout the source
(`Result<T, E>` in `src/types/index.ts`). -/
inductive Result (α : Type) (ε : Type) where
  | ok (value : α) : Result α ε
  | error (e : ε) : Result α ε
deriving DecidableEq

namespace Result

/-- `success` discriminant of a `Result`. -/
def isOk {α ε : Type} : Result α ε → Bool
  | .ok _ => true
  | .error _ => false

/-- The value of a successful `Result`, as an `Option`. -/
def toOption {α ε : Type} : Result α ε → Option α
  | .ok v => some v
  | .error _ => none

end Result

/-- The `'Over' | 'Under'` label union of `src/types/index.ts`. -/
inductive Label where
  | Over : Label
  | Under : Label
deriving DecidableEq, Repr

/-- String rendering of a label, as interpolated into error messages. -/
def Label.str : Label → String
  | .Over => "Over"
  | .Under => "Under"

/-- One sportsbook's quote for one side of a market
(`Outcome` in `src/types/index.ts`).  Only the fields the verified logic
reads are carried: `label`, `odds` (the raw implied-probability quantity),
`sportsbookCode`, `line` (stored as a string in the source, compared
numerically via `parseFloat`; carried here as the parsed value), and the
American-odds string.  Display-only fields (`displayLabel`, logos, hash
codes, ...) are omitted. -/
structure Outcome where
  label : Label
  odds : ℝ
  sportsbookCode : String
  line : ℚ
  americanOdds : String

/-- A participant of an offer (`Participant` in `src/types/index.ts`);
only `id` and `name` are read by the logic. -/
structure Participant where
  id : String
  name : String

/-- A named side of an offer grouping outcomes (`Side`). -/
structure Side where
  outcomes : List Outcome

/-- One bettable market (`Offer`); only the fields read by the logic. -/
structure Offer where
  offerName : String
  participants : List Participant
  sides : List Side

/-- `CalculationError` of `src/errors/index.ts`: message, machine-readable
code and HTTP status.  The subclasses below fix the code/status. -/
structure CalculationError where
  message : String
  code : String
  httpStatus : Nat
deriving DecidableEq

/-- `DevigError` subclass: code `DEVIG_ERROR`, status 422. -/
def DevigError (message : String) : CalculationError :=
  ⟨message, "DEVIG_ERROR", 422⟩

/-- `OfferNotFoundError` subclass: code `OFFER_NOT_FOUND`, status 404. -/
def OfferNotFoundError (offerId : String) : CalculationError :=
  ⟨"Offer not found for ID: " ++ offerId, "OFFER_NOT_FOUND", 404⟩

/-- `OfferNotFoundForPlayerError` subclass (player-keyed not-found). -/
def OfferNotFoundForPlayerError (playerId : String) : CalculationError :=
  ⟨"Offer not found for player ID: " ++ playerId, "OFFER_NOT_FOUND_FOR_PLAYER", 404⟩

/-- `NoSharpOutcomesError` subclass: code `NO_SHARP_OUTCOMES`, status 422. -/
def NoSharpOutcomesError (sharps : List String) : CalculationError :=
  ⟨"No sharp outcomes found for sharps: " ++ String.intercalate ", " sharps,
    "NO_SHARP_OUTCOMES", 422⟩

/-- `TargetOutcomeNotFoundError` subclass: code `TARGET_OUTCOME_NOT_FOUND`. -/
def TargetOutcomeNotFoundError (targetBook : String) : CalculationError :=
  ⟨"Target outcome not found for book: " ++ targetBook, "TARGET_OUTCOME_NOT_FOUND", 404⟩

/-- `TargetOutcomeNotCompleteError` subclass (extends `OneSidedMarketError`,
so its code is `ONE_SIDED_MARKET` and status 409). -/
def TargetOutcomeNotCompleteError (targetBook : String) : CalculationError :=
  ⟨"One-sided market found for: Target outcome not complete for book: " ++ targetBook,
    "ONE_SIDED_MARKET", 409⟩

/-- Generic `CalculationError` constructor call `new CalculationError(msg, code)`
with the default status 500. -/
def CalcError (message code : String) : CalculationError :=
  ⟨message, code, 500⟩

/-!
## Devigging engine (`src/logic/devig.ts`)
-/

/-- Multiplicative method: `p1 / (p1 + p2)` (`devigMultiplicative`). -/
noncomputable def devigMultiplicative (p1 p2 : ℝ) : ℝ :=
  let total := p1 + p2
  p1 / total

/-- Additive method: `p1 - (p1 + p2 - 1) / 2` (`devigAdditive`). -/
noncomputable def devigAdditive (p1 p2 : ℝ) : ℝ :=
  let overround := p1 + p2 - 1
  p1 - overround / 2

/-- Shin method: for a two-outcome market the source delegates directly to
the additive method (`devigShin`). -/
noncomputable def devigShin (p1 p2 : ℝ) : ℝ :=
  devigAdditive p1 p2

/-- Over/Under skewed method: 65% of the overround on the Over side, 35% on
the Under side (`devigOsSkewed`). -/
noncomputable def devigOsSkewed (p1 p2 : ℝ) (label : Label) : ℝ :=
  let total := p1 + p2
  let overround := total - 1
  let weight : ℝ := if label = .Over then 0.65 else 0.35
  p1 - weight * overround

open Classical in
/-- The binary-search loop of `devigPower`: state `(min, max, k)`, at most
`fuel` iterations remaining.  Each iteration sets `k := (min + max) / 2`,
breaks when `|p1^k + p2^k - 1| < 1e-5`, otherwise narrows the bracket.
Returns the final `k` (last computed, whether or not converged). -/
noncomputable def devigPowerLoop (p1 p2 : ℝ) : ℕ → ℝ → ℝ → ℝ → ℝ
  | 0, _, _, k => k
  | fuel + 1, lo, hi, _ =>
    let k := (lo + hi) / 2
    let val := p1 ^ k + p2 ^ k
    if |val - 1| < 0.00001 then k
    else if val > 1 then devigPowerLoop p1 p2 fuel k hi k
    else devigPowerLoop p1 p2 fuel lo k k

/-- Power method (`devigPower`): binary search over `[1, 10]`, 20
iterations, for `k` with `p1^k + p2^k = 1`; returns `p1^k` for the last
computed `k`.  `Math.pow` on JavaScript doubles is embedded as real
exponentiation (`Real.rpow`). -/
noncomputable def devigPower (p1 p2 : ℝ) : ℝ :=
  p1 ^ (devigPowerLoop p1 p2 20 1 10 1)

/-- The five method tokens the request boundary accepts
(`DevigMethodSchema` in `src/types/index.ts`): note the fifth is spelled
`osskewed` there, while the engine's switch matches `os_skewed`. -/
def DevigMethodSchema : List String :=
  ["multiplicative", "additive", "power", "shin", "osskewed"]

/-- The method tokens the engine's `switch` statement actually dispatches on
(`devigOdds` in `src/logic/devig.ts`). -/
def devigSwitchMethods : List String :=
  ["additive", "power", "os_skewed", "shin", "multiplicative"]

open Classical in
/-- The devig engine (`devigOdds`): finds the target-side outcome and the
opposite-side outcome, rejects a missing side or a zero `odds` value, then
dispatches on the method token; an unrecognized token is an unsupported-method
failure.  The method is carried as the raw string the `switch` compares. -/
noncomputable def devigOdds (outcomes : List Outcome) (label : Label)
    (method : String) : Result ℝ CalculationError :=
  let targetOutcome := outcomes.find? (fun o => o.label = label)
  let oppositeOutcome := outcomes.find? (fun o => ¬ (o.label = label))
  match targetOutcome, oppositeOutcome with
  | some t, some opp =>
    let p1 := t.odds
    let p2 := opp.odds
    if p1 = 0 ∨ p2 = 0 then
      .error (DevigError "Market data error: Implied probability cannot be zero.")
    else if method = "additive" then .ok (devigAdditive p1 p2)
    else if method = "power" then .ok (devigPower p1 p2)
    else if method = "os_skewed" then .ok (devigOsSkewed p1 p2 label)
    else if method = "shin" then .ok (devigShin p1 p2)
    else if method = "multiplicative" then .ok (devigMultiplicative p1 p2)
    else .error (DevigError ("Unsupported devigging method: " ++ method))
  | _, _ =>
    .error (DevigError
      ("Incomplete market: Missing outcome for " ++ label.str ++ " or its opposite."))

/-!
## Odds conversion utilities (`src/utils/odds.ts`) and Kelly (`src/server.ts`)
-/

open Classical in
/-- `americanToDecimal`: positive American odds map to `a/100 + 1`,
non-positive to `100/|a| + 1`. -/
noncomputable def americanToDecimal (american : ℝ) : ℝ :=
  if american > 0 then american / 100 + 1 else 100 / |american| + 1

/-- `calculateEVPercentage`: `(trueProb * decimalOdds - 1) * 100`. -/
noncomputable def calculateEVPercentage (trueProb decimalOdds : ℝ) : ℝ :=
  (trueProb * decimalOdds - 1) * 100

/-- `calculateKellyFraction` (`src/server.ts`): `f = (b·p − q) / b` with
`b = decimalOdds − 1`, `q = 1 − p`, clamped below at 0. -/
noncomputable def calculateKellyFraction (trueProbability decimalOdds : ℝ) : ℝ :=
  let b := decimalOdds - 1
  let p := trueProbability
  let q := 1 - p
  let kellyFraction := (b * p - q) / b
  max 0 kellyFraction

/-!
## Market resolution and EV orchestration (`src/logic/ev.ts`)
-/

/-- JavaScript `parseInt` restricted to the decimal American-odds strings the
source feeds it: an optional sign followed by a leading digit run; `none`
models the `NaN` result when no leading digits exist. -/
def parseIntJS (s : String) : Option Int :=
  let cs := s.data
  let signAndRest : Int × List Char :=
    match cs with
    | '-' :: r => (-1, r)
    | '+' :: r => (1, r)
    | r => (1, r)
  let ds := signAndRest.2.takeWhile Char.isDigit
  if ds.isEmpty then none
  else some (signAndRest.1 * (ds.foldl (fun a c => a * 10 + (c.toNat - '0'.toNat)) 0 : ℕ))

/-- `findSpecificOffer`: first offer whose first participant's id equals the
requested player id; an offer with no participants never matches. -/
def findSpecificOffer (offers : List Offer) (playerId : String) :
    Result Offer CalculationError :=
  match offers.find? (fun o => (o.participants.head?.map Participant.id) = some playerId) with
  | some offer => .ok offer
  | none => .error (OfferNotFoundForPlayerError playerId)

/-- `hasCompleteMarket`: among the outcomes of one sportsbook, at least one
`Over` and at least one `Under`. -/
def hasCompleteMarket (outcomes : List Outcome) (sportsbookCode : String) : Bool :=
  let relevantOutcomes := outcomes.filter (fun o => o.sportsbookCode = sportsbookCode)
  let hasOver := relevantOutcomes.any (fun o => o.label = .Over)
  let hasUnder := relevantOutcomes.any (fun o => o.label = .Under)
  hasOver && hasUnder

/-- `findAvailableSharpBooks`: candidate sharp codes present among the
outcomes and passing the complete-market check, deduplicated (first
occurrence kept, as `Array.from(new Set(...))` does). -/
def findAvailableSharpBooks (allOutcomes : List Outcome) (sharps : List String) :
    Result (List String) CalculationError :=
  let availableSharps :=
    ((allOutcomes.filter (fun o => sharps.contains o.sportsbookCode)).filter
      (fun o => hasCompleteMarket allOutcomes o.sportsbookCode)).map
      (fun o => o.sportsbookCode)
  let uniqueAvailableSharps := availableSharps.eraseDups
  if uniqueAvailableSharps.length = 0 then .error (NoSharpOutcomesError sharps)
  else .ok uniqueAvailableSharps

/-- `findTargetOutcomes` (the line-aware version of `src/logic/ev.ts`):
outcomes of the target book, restricted to the requested line when one is
supplied; zero matches is a not-found failure; anything other than exactly
two matches forming a complete Over/Under pair is an incomplete failure. -/
def findTargetOutcomes (outcomes : List Outcome) (targetBook : String)
    (line : Option ℚ) : Result (List Outcome) CalculationError :=
  let byBook := outcomes.filter (fun o => o.sportsbookCode = targetBook)
  let targetOutcomes :=
    match line with
    | some l => byBook.filter (fun o => o.line = l)
    | none => byBook
  if targetOutcomes.length = 0 then .error (TargetOutcomeNotFoundError targetBook)
  else if ¬ (hasCompleteMarket targetOutcomes targetBook) ∨ targetOutcomes.length ≠ 2 then
    .error (TargetOutcomeNotCompleteError targetBook)
  else .ok targetOutcomes

/-- `extractAmericanOdds`: the American-odds string of the requested side,
parsed with `parseInt`; an unparseable string is an invalid-odds failure. -/
def extractAmericanOdds (outcomes : List Outcome) (side : Label) :
    Result Int CalculationError :=
  match outcomes.find? (fun o => o.label = side) with
  | none => .error (CalcError "Target Book side missing" "TARGET_BOOK_SIDE_MISSING")
  | some outcome =>
    match parseIntJS outcome.americanOdds with
    | none =>
      .error (CalcError ("Invalid American odds: " ++ outcome.americanOdds) "INVALID_ODDS")
    | some odds => .ok odds

/-- `calculateAverageTrueProbability`: deviggs each sharp book's own
outcomes, accumulating a sum and a success count over the book codes in
order; failed books are skipped.  Fails only when no book succeeded,
otherwise returns `sum / count`. -/
noncomputable def calculateAverageTrueProbability (sharpOutcomesPool : List Outcome)
    (sharpBookCodes : List String) (label : Label) (method : String) :
    Result ℝ CalculationError :=
  let st : ℝ × ℕ := sharpBookCodes.foldl
    (fun acc code =>
      let bookOutcomes := sharpOutcomesPool.filter (fun o => o.sportsbookCode = code)
      match devigOdds bookOutcomes label method with
      | .ok v => (acc.1 + v, acc.2 + 1)
      | .error _ => acc)
    (0, 0)
  if st.2 = 0 then
    .error (DevigError "No sharp books provided valid two-sided probability data.")
  else .ok (st.1 / st.2)

/-- A single-calculation request (`CalculateEVRequest` in
`src/types/index.ts`).  The devig method is carried as its raw string
token, as the engine's `switch` receives it. -/
structure CalculateEVRequest where
  offerId : String
  playerId : String
  line : ℚ
  side : Label
  targetBook : String
  sharps : List String
  devigMethod : String
  bankroll : Option ℝ

/-- A batch item: a `CalculateEVRequest` without the shared `offerId`
(the `Omit<CalculateEVRequest, 'offerId'>` shape). -/
structure ItemRequest where
  playerId : String
  line : ℚ
  side : Label
  targetBook : String
  sharps : List String
  devigMethod : String
  bankroll : Option ℝ

/-- The successful EV analysis (`CalculateEVResponse`). -/
structure CalculateEVResponse where
  player : String
  market : String
  line : ℚ
  side : Label
  targetBook : String
  targetOdds : Int
  trueProbability : ℝ
  impliedProbability : ℝ
  expectedValue : ℝ
  sharpsUsed : List String

/-- `calculateEVFromOffer` (`src/logic/ev.ts`): resolves sharp books and the
target market inside a pre-fetched offer, averages the sharp books' devigged
probabilities, deviggs the target pair, and assembles the EV response.
The `find(...)?.name || 'Unknown Player'` fallback also replaces an empty
participant name (JavaScript falsiness). -/
noncomputable def calculateEVFromOffer (offer : Offer) (req : ItemRequest) :
    Result CalculateEVResponse CalculationError :=
  let allOutcomes := (offer.sides.map Side.outcomes).flatten
  match findAvailableSharpBooks allOutcomes req.sharps with
  | .error e => .error e
  | .ok sharpBookCodes =>
    match findTargetOutcomes allOutcomes req.targetBook (some req.line) with
    | .error e => .error e
    | .ok targetOutcomes =>
      match extractAmericanOdds targetOutcomes req.side with
      | .error e => .error e
      | .ok targetAmericanOdds =>
        let devigMethod := req.devigMethod
        let sharpOutcomesPool :=
          allOutcomes.filter (fun o => sharpBookCodes.contains o.sportsbookCode)
        match calculateAverageTrueProbability sharpOutcomesPool sharpBookCodes
            req.side devigMethod with
        | .error e => .error e
        | .ok trueProbability =>
          match devigOdds targetOutcomes req.side devigMethod with
          | .error e => .error e
          | .ok impliedProbability =>
            let targetDecimalOdds := americanToDecimal (targetAmericanOdds : ℝ)
            let expectedValue := calculateEVPercentage trueProbability targetDecimalOdds
            let player :=
              match offer.participants.find? (fun p => p.id = req.playerId) with
              | some p => if p.name = "" then "Unknown Player" else p.name
              | none => "Unknown Player"
            .ok
              { player := player
                market := offer.offerName
                line := req.line
                side := req.side
                targetBook := req.targetBook
                targetOdds := targetAmericanOdds
                trueProbability := trueProbability
                impliedProbability := impliedProbability
                expectedValue := expectedValue
                sharpsUsed := sharpBookCodes }

/-!
## Batch orchestration (`src/logic/batch.ts`)

The two suspension points of the batch pipeline are externals: the shared
offer fetch is embedded as its delivered `Result`, and the EV-result cache
as a lookup function (`getCachedEVResult`); `setCachedEVResult` has no
effect on the returned batch response and is dropped.
-/

/-- The `{ code, message }` error object embedded in a failed batch slot. -/
structure ErrorBody where
  code : String
  message : String
deriving DecidableEq

/-- One slot of the batch results array (`BatchItemResult`): its positional
index, and a tagged success (with the EV response) or failure (with
code/message). -/
structure BatchItemResult where
  index : ℕ
  outcome : Result CalculateEVResponse ErrorBody

/-- The batch request (`BatchCalculateEVRequest`): one shared offer id and
the per-item requests. -/
structure BatchRequest where
  offerId : String
  items : List ItemRequest

/-- The batch response (`BatchCalculateEVResponse`). -/
structure BatchResponse where
  offerId : String
  totalItems : ℕ
  successCount : ℕ
  errorCount : ℕ
  results : List BatchItemResult

/-- `createAllErrorsBatchResponse`: every slot carries the same error,
indexed positionally; zero successes. -/
def createAllErrorsBatchResponse (offerId : String) (itemCount : ℕ)
    (error : ErrorBody) : BatchResponse :=
  { offerId := offerId
    totalItems := itemCount
    successCount := 0
    errorCount := itemCount
    results := (List.range itemCount).map (fun i => ⟨i, .error error⟩) }

/-- One iteration of the batch loop body: cache lookup (skipped when
`skipCache`), then per-item offer resolution and EV calculation, producing
the slot for index `i`. -/
noncomputable def processBatchItem (offers : List Offer)
    (cache : CalculateEVRequest → Option CalculateEVResponse) (skipCache : Bool)
    (offerId : String) (i : ℕ) (item : ItemRequest) : BatchItemResult :=
  let fullReq : CalculateEVRequest :=
    { offerId := offerId
      playerId := item.playerId
      line := item.line
      side := item.side
      targetBook := item.targetBook
      sharps := item.sharps
      devigMethod := item.devigMethod
      bankroll := item.bankroll }
  match (if skipCache then none else cache fullReq) with
  | some cached => ⟨i, .ok cached⟩
  | none =>
    match findSpecificOffer offers item.playerId with
    | .error e => ⟨i, .error ⟨e.code, e.message⟩⟩
    | .ok offer =>
      match calculateEVFromOffer offer item with
      | .ok v => ⟨i, .ok v⟩
      | .error e => ⟨i, .error ⟨e.code, e.message⟩⟩

/-- The batch loop over the items, starting at index `i`, pushing one
`BatchItemResult` per item in order. -/
noncomputable def processBatchItems (offers : List Offer)
    (cache : CalculateEVRequest → Option CalculateEVResponse) (skipCache : Bool)
    (offerId : String) : ℕ → List ItemRequest → List BatchItemResult
  | _, [] => []
  | i, item :: rest =>
    processBatchItem offers cache skipCache offerId i item ::
      processBatchItems offers cache skipCache offerId (i + 1) rest

/-- `calculateEVBatch`: a failed shared fetch, or an empty offer list, fans
the same error out to every slot; otherwise each item is processed
independently in order.  The source increments its success/error counters
exactly when it pushes a success/failure slot, so the counters equal the
counts over the final results array. -/
noncomputable def calculateEVBatch (fetchResult : Result (List Offer) CalculationError)
    (cache : CalculateEVRequest → Option CalculateEVResponse) (skipCache : Bool)
    (req : BatchRequest) : BatchResponse :=
  match fetchResult with
  | .error e =>
    createAllErrorsBatchResponse req.offerId req.items.length ⟨e.code, e.message⟩
  | .ok offers =>
    if offers.length = 0 then
      createAllErrorsBatchResponse req.offerId req.items.length
        ⟨"NOT_FOUND", "Offer not found"⟩
    else
      let results := processBatchItems offers cache skipCache req.offerId 0 req.items
      { offerId := req.offerId
        totalItems := req.items.length
        successCount := (results.filter (fun r => r.outcome.isOk)).length
        errorCount := (results.filter (fun r => ! r.outcome.isOk)).length
        results := results }

/-- The devigged fair probabilities, in book order, of exactly those books
whose individual devig attempt succeeded (statement helper for the
averaging loop). -/
noncomputable def successfulDevigs (pool : List Outcome) (label : Label) (method : String)
    (codes : List String) : List ℝ :=
  codes.filterMap (fun code =>
    match devigOdds (pool.filter (fun o => o.sportsbookCode = code)) label method with
    | .ok v => some v
    | .error _ => none)

/-!
## Theorems
-/

/-- C4: For all positive `p1` and `p2`, the multiplicative devig results of
the two sides sum to exactly 1:
`devigMultiplicative p1 p2 + devigMultiplicative p2 p1 = 1`. -/
theorem devigMultiplicative_sides_sum_one (p1 p2 : ℝ) (h1 : 0 < p1) (h2 : 0 < p2) :
    devigMultiplicative p1 p2 + devigMultiplicative p2 p1 = 1 := by
  have h : p1 + p2 ≠ 0 := ne_of_gt (by linarith)
  simp only [devigMultiplicative]
  rw [add_comm p2 p1]
  field_simp

/-- Witness for C4 at `p1 = 0.55`, `p2 = 0.55`. -/
theorem devigMultiplicative_sides_sum_one_witness :
    devigMultiplicative 0.55 0.55 + devigMultiplicative 0.55 0.55 = 1 :=
  devigMultiplicative_sides_sum_one 0.55 0.55 (by norm_num) (by norm_num)

/-- C9: For decimal odds `d > 1`, `calculateKellyFraction p d` is exactly 0
whenever `p * d ≤ 1` (breakeven or negative edge), and exactly 1 when
`p = 1`. -/
theorem calculateKellyFraction_clamp_and_certainty (p d : ℝ) (hd : 1 < d) :
    (p * d ≤ 1 → calculateKellyFraction p d = 0) ∧
    (p = 1 → calculateKellyFraction p d = 1) := by
  have hb : (0 : ℝ) < d - 1 := by linarith
  constructor
  · intro hle
    have hnum : (d - 1) * p - (1 - p) ≤ 0 := by nlinarith
    have : ((d - 1) * p - (1 - p)) / (d - 1) ≤ 0 := div_nonpos_of_nonpos_of_nonneg hnum hb.le
    simp only [calculateKellyFraction]
    exact max_eq_left this
  · intro hp
    subst hp
    simp only [calculateKellyFraction]
    rw [show (d - 1) * 1 - (1 - 1) = d - 1 by ring, div_self (ne_of_gt hb)]
    exact max_eq_right zero_le_one

/-- Witness for C9 at `p = 1`, `d = 2` (and breakeven at `p = 1/2`, `d = 2`). -/
theorem calculateKellyFraction_clamp_and_certainty_witness :
    calculateKellyFraction 1 2 = 1 ∧ calculateKellyFraction (1/2) 2 = 0 :=
  ⟨(calculateKellyFraction_clamp_and_certainty 1 2 (by norm_num)).2 rfl,
   (calculateKellyFraction_clamp_and_certainty (1/2) 2 (by norm_num)).1 (by norm_num)⟩

/-- C2: For every outcome list and requested side, the devig engine's result
for the `shin` method is identical to its result for the `additive` method
(`devigShin` delegates directly to `devigAdditive`); in particular the two
agree, bit for bit, on every input on which the engine succeeds. -/
theorem devigOdds_shin_eq_additive (outcomes : List Outcome) (label : Label) :
    devigOdds outcomes label "shin" = devigOdds outcomes label "additive" := by
  unfold devigOdds
  cases outcomes.find? (fun o => o.label = label) with
  | none => rfl
  | some t =>
    cases outcomes.find? (fun o => ¬ (o.label = label)) with
    | none => rfl
    | some opp =>
      simp only [devigShin]
      split
      · rfl
      · rw [if_neg (show ¬ (("shin" : String) = "additive") by decide),
          if_neg (show ¬ (("shin" : String) = "power") by decide),
          if_neg (show ¬ (("shin" : String) = "os_skewed") by decide)]
        simp

/-- C1 (code bug): the skewed-totals token recognized at the request
boundary — `osskewed`, the fifth variant of `DevigMethodSchema` — is not
matched by the engine's `switch`, which matches `os_skewed` instead; on the
repository's own test input (`odds` 0.55/0.55, side `Over`) the engine
returns an unsupported-method failure, although the skewed formula
`devigOsSkewed` would give the 0.485 the tests expect. -/
theorem devigOdds_osskewed_token_rejected :
    devigOdds
      [{ label := .Over, odds := 0.55, sportsbookCode := "PINNACLE",
         line := 25.5, americanOdds := "-110" },
       { label := .Under, odds := 0.55, sportsbookCode := "PINNACLE",
         line := 25.5, americanOdds := "-110" }]
      .Over "osskewed"
      = .error (DevigError "Unsupported devigging method: osskewed")
    ∧ DevigMethodSchema.getLast? = some "osskewed"
    ∧ ¬ ("osskewed" ∈ devigSwitchMethods)
    ∧ devigOsSkewed 0.55 0.55 .Over = 0.485 := by
  refine ⟨?_, by decide, by decide, ?_⟩
  · unfold devigOdds
    simp only [List.find?]
    norm_num
    simp only [show decide (Label.Under = Label.Over) = false from rfl, Bool.not_false]
    rw [if_neg (by norm_num : ¬ ((11/20 : ℝ) = 0 ∨ (11/20 : ℝ) = 0)),
      if_neg (show ¬ (("osskewed" : String) = "additive") by decide),
      if_neg (show ¬ (("osskewed" : String) = "power") by decide),
      if_neg (show ¬ (("osskewed" : String) = "os_skewed") by decide),
      if_neg (show ¬ (("osskewed" : String) = "shin") by decide),
      if_neg (show ¬ (("osskewed" : String) = "multiplicative") by decide)]
    rfl
  · simp only [devigOsSkewed, if_pos rfl]
    norm_num

/-- C10: for a two-outcome Over/Under pair whose `odds` values are both
nonzero — negative values included — and any method token the engine's
switch supports, `devigOdds` succeeds: the documented `odds > 0`
precondition is not enforced, only exact zero on a matched outcome is
rejected. -/
theorem devigOdds_accepts_nonzero_odds (o1 o2 : Outcome) (label : Label) (method : String)
    (hm : method ∈ devigSwitchMethods)
    (h1 : o1.label = Label.Over) (h2 : o2.label = Label.Under)
    (hz1 : o1.odds ≠ 0) (hz2 : o2.odds ≠ 0) :
    ∃ v, devigOdds [o1, o2] label method = .ok v := by
  unfold devigOdds
  simp only [devigSwitchMethods, List.mem_cons, List.not_mem_nil, or_false] at hm
  have key : ∀ (t opp : Outcome), t.odds ≠ 0 → opp.odds ≠ 0 →
      ∃ v, (if t.odds = 0 ∨ opp.odds = 0 then
        (Result.error (DevigError "Market data error: Implied probability cannot be zero.")
          : Result ℝ CalculationError)
      else if method = "additive" then .ok (devigAdditive t.odds opp.odds)
      else if method = "power" then .ok (devigPower t.odds opp.odds)
      else if method = "os_skewed" then .ok (devigOsSkewed t.odds opp.odds label)
      else if method = "shin" then .ok (devigShin t.odds opp.odds)
      else if method = "multiplicative" then .ok (devigMultiplicative t.odds opp.odds)
      else .error (DevigError ("Unsupported devigging method: " ++ method))) = .ok v := by
    intro t opp ht hopp
    rw [if_neg (not_or.mpr ⟨ht, hopp⟩)]
    rcases hm with rfl | rfl | rfl | rfl | rfl
    · exact ⟨_, by rw [if_pos rfl]⟩
    · exact ⟨_, by rw [if_neg (by decide), if_pos rfl]⟩
    · exact ⟨_, by rw [if_neg (by decide), if_neg (by decide), if_pos rfl]⟩
    · exact ⟨_, by rw [if_neg (by decide), if_neg (by decide), if_neg (by decide), if_pos rfl]⟩
    · exact ⟨_, by rw [if_neg (by decide), if_neg (by decide), if_neg (by decide),
        if_neg (by decide), if_pos rfl]⟩
  cases label with
  | Over =>
    simp only [List.find?, h1, h2]
    norm_num
    exact key o1 o2 hz1 hz2
  | Under =>
    simp only [List.find?, h1, h2]
    norm_num
    exact key o2 o1 hz2 hz1

/-- Witness for C10: a pair with strictly negative `odds` values and the
`multiplicative` token succeeds. -/
theorem devigOdds_accepts_nonzero_odds_witness :
    ∃ v, devigOdds
      [{ label := .Over, odds := -0.5, sportsbookCode := "A", line := 1, americanOdds := "-110" },
       { label := .Under, odds := -0.6, sportsbookCode := "A", line := 1, americanOdds := "+105" }]
      .Over "multiplicative" = .ok v :=
  devigOdds_accepts_nonzero_odds _ _ _ _ (by decide) rfl rfl (by norm_num) (by norm_num)

/-- Invariant of the power method's binary search: the bracket keeps
`1 ≤ lo < hi`, every computed midpoint is strictly above `lo`, and so the
final exponent is strictly greater than 1 (the search never tests
`k = 1`). -/
theorem devigPowerLoop_gt_one (p1 p2 : ℝ) :
    ∀ (fuel : ℕ) (lo hi k : ℝ), 1 ≤ lo → lo < hi → (fuel = 0 → 1 < k) →
    1 < devigPowerLoop p1 p2 fuel lo hi k := by
  intro fuel
  induction fuel with
  | zero =>
    intro lo hi k _ _ hk
    simpa [devigPowerLoop] using hk rfl
  | succ n ih =>
    intro lo hi k hlo hlt _
    have hk : 1 < (lo + hi) / 2 := by linarith
    rw [devigPowerLoop]
    split
    · exact hk
    · split
      · exact ih _ _ _ hk.le (by linarith) (fun _ => hk)
      · exact ih _ _ _ hlo (by linarith) (fun _ => hk)

/-- For a base strictly between 0 and 1 the power method's output
`p1 ^ k` with final exponent `k > 1` lies strictly below `p1`. -/
theorem devigPower_lt_self (p1 p2 : ℝ) (h0 : 0 < p1) (h1 : p1 < 1) :
    devigPower p1 p2 < p1 := by
  unfold devigPower
  have hk : 1 < devigPowerLoop p1 p2 20 1 10 1 :=
    devigPowerLoop_gt_one p1 p2 20 1 10 1 le_rfl (by norm_num) (by simp)
  have h := Real.rpow_lt_rpow_of_exponent_gt h0 h1 hk
  simpa [Real.rpow_one] using h

/-- C3 counterexample: at the fair market `p1 = p2 = 1/2` the power method
does not return `p1`. -/
theorem devigPower_fair_market_not_identity :
    ¬ (devigPower (1/2 : ℝ) (1/2) = 1/2) :=
  ne_of_lt (devigPower_lt_self (1/2) (1/2) (by norm_num) (by norm_num))

/-- C3 (amended): on a fair two-outcome market (`p1 + p2 = 1`, both sides
positive) the multiplicative, additive, shin and os_skewed methods return
exactly `p1`; the power method instead returns `p1 ^ k` for the binary
search's final exponent `k > 1` — strictly below `p1`, because the search
over `[1, 10]` only ever tests midpoints above 1, never `k = 1`. -/
theorem fair_market_devig_identity (p1 p2 : ℝ) (hsum : p1 + p2 = 1)
    (h1 : 0 < p1) (h2 : 0 < p2) :
    devigMultiplicative p1 p2 = p1 ∧ devigAdditive p1 p2 = p1 ∧
    devigShin p1 p2 = p1 ∧ (∀ label, devigOsSkewed p1 p2 label = p1) ∧
    devigPower p1 p2 < p1 := by
  refine ⟨?_, ?_, ?_, ?_, ?_⟩
  · simp [devigMultiplicative, hsum]
  · simp [devigAdditive, hsum]
  · simp [devigShin, devigAdditive, hsum]
  · intro label; simp [devigOsSkewed, hsum]
  · exact devigPower_lt_self p1 p2 h1 (by linarith)

/-- Witness for C3 at the fair market `p1 = p2 = 1/2`. -/
theorem fair_market_devig_identity_witness :
    devigMultiplicative (1/2) (1/2) = 1/2 ∧ devigAdditive (1/2) (1/2) = 1/2 ∧
    devigShin (1/2) (1/2) = 1/2 ∧ (∀ label, devigOsSkewed (1/2) (1/2) label = 1/2) ∧
    devigPower (1/2) (1/2) < 1/2 :=
  fair_market_devig_identity (1/2) (1/2) (by norm_num) (by norm_num) (by norm_num)

/-- C6: with `ms` the target book's outcomes at the requested line,
`findTargetOutcomes` fails with the not-found error when `ms` is empty,
fails with the incomplete-market error when `ms` is nonempty but does not
consist of exactly 2 outcomes forming a complete Over/Under pair, and
succeeds — returning exactly `ms` — precisely when `ms` has exactly 2
outcomes forming a complete pair. -/
theorem findTargetOutcomes_cases (outcomes : List Outcome)
    (targetBook : String) (line : ℚ) :
    let ms := (outcomes.filter (fun o => o.sportsbookCode = targetBook)).filter
      (fun o => o.line = line)
    (ms.length = 0 →
      findTargetOutcomes outcomes targetBook (some line)
        = .error (TargetOutcomeNotFoundError targetBook)) ∧
    (ms.length ≠ 0 → (¬ (hasCompleteMarket ms targetBook = true) ∨ ms.length ≠ 2) →
      findTargetOutcomes outcomes targetBook (some line)
        = .error (TargetOutcomeNotCompleteError targetBook)) ∧
    (ms.length = 2 → hasCompleteMarket ms targetBook = true →
      findTargetOutcomes outcomes targetBook (some line) = .ok ms) ∧
    ((∃ v, findTargetOutcomes outcomes targetBook (some line) = .ok v) ↔
      (ms.length = 2 ∧ hasCompleteMarket ms targetBook = true)) := by
  intro ms
  have hEq : findTargetOutcomes outcomes targetBook (some line)
      = (if ms.length = 0 then .error (TargetOutcomeNotFoundError targetBook)
         else if ¬ (hasCompleteMarket ms targetBook = true) ∨ ¬ (ms.length = 2) then
           .error (TargetOutcomeNotCompleteError targetBook)
         else .ok ms) := rfl
  have hok : ∀ (h0 : ¬ ms.length = 0) (hc : hasCompleteMarket ms targetBook = true)
      (h2 : ms.length = 2),
      findTargetOutcomes outcomes targetBook (some line) = .ok ms := by
    intro h0 hc h2
    rw [hEq, if_neg h0, if_neg (by push_neg; exact ⟨hc, h2⟩)]
  refine ⟨?_, ?_, ?_, ?_⟩
  · intro h; rw [hEq, if_pos h]
  · intro hne hbad
    rw [hEq, if_neg hne, if_pos hbad]
  · intro h2 hc
    exact hok (by omega) hc h2
  · constructor
    · rintro ⟨v, hv⟩
      rw [hEq] at hv
      by_cases h0 : ms.length = 0
      · rw [if_pos h0] at hv; exact absurd hv (by simp)
      · rw [if_neg h0] at hv
        by_cases hbad : ¬ (hasCompleteMarket ms targetBook = true) ∨ ¬ (ms.length = 2)
        · rw [if_pos hbad] at hv; exact absurd hv (by simp)
        · push_neg at hbad
          exact ⟨hbad.2, hbad.1⟩
    · rintro ⟨h2, hc⟩
      exact ⟨ms, hok (by omega) hc h2⟩

/-- The averaging loop's accumulator equals the starting sum/count plus the
sum and number of the successful books' devigged probabilities. -/
theorem calcAvg_foldl (pool : List Outcome) (label : Label) (method : String) :
    ∀ (codes : List String) (s : ℝ) (n : ℕ),
      codes.foldl (fun acc code =>
        let bookOutcomes := pool.filter (fun o => o.sportsbookCode = code)
        match devigOdds bookOutcomes label method with
        | .ok v => (acc.1 + v, acc.2 + 1)
        | .error _ => acc) ((s, n) : ℝ × ℕ)
      = (s + (successfulDevigs pool label method codes).sum,
         n + (successfulDevigs pool label method codes).length) := by
  intro codes
  induction codes with
  | nil => intro s n; simp [successfulDevigs]
  | cons c cs ih =>
    intro s n
    simp only [successfulDevigs] at ih ⊢
    simp only [List.foldl_cons, List.filterMap_cons]
    cases h : devigOdds (pool.filter (fun o => o.sportsbookCode = c)) label method with
    | ok v =>
      simp only [h]
      rw [ih]
      simp only [List.sum_cons, List.length_cons, Prod.mk.injEq]
      constructor
      · ring
      · omega
    | error e =>
      simp only [h]
      rw [ih]

/-- C5: `calculateAverageTrueProbability` fails (with the no-valid-books
devig error) precisely when every listed book's devig attempt failed, and
otherwise returns the arithmetic mean of the devigged fair probabilities of
exactly the books that succeeded. -/
theorem calculateAverageTrueProbability_mean (pool : List Outcome)
    (codes : List String) (label : Label) (method : String) :
    (calculateAverageTrueProbability pool codes label method
        = .error (DevigError "No sharp books provided valid two-sided probability data.")
      ↔ successfulDevigs pool label method codes = []) ∧
    (successfulDevigs pool label method codes ≠ [] →
      calculateAverageTrueProbability pool codes label method
        = .ok ((successfulDevigs pool label method codes).sum
            / (successfulDevigs pool label method codes).length)) := by
  unfold calculateAverageTrueProbability
  rw [calcAvg_foldl]
  simp only [zero_add]
  by_cases h : successfulDevigs pool label method codes = []
  · constructor
    · simp [h]
    · intro hne; exact absurd h hne
  · have hlen : (successfulDevigs pool label method codes).length ≠ 0 := by
      simpa [List.length_eq_zero] using h
    rw [if_neg hlen]
    constructor
    · constructor
      · intro hv; exact absurd hv (by simp)
      · intro hv; exact absurd hv h
    · intro _; rfl

/-- Every branch of the batch loop body tags its slot with the loop index. -/
theorem processBatchItem_index (offers : List Offer)
    (cache : CalculateEVRequest → Option CalculateEVResponse) (skipCache : Bool)
    (offerId : String) (i : ℕ) (item : ItemRequest) :
    (processBatchItem offers cache skipCache offerId i item).index = i := by
  unfold processBatchItem
  dsimp only
  split
  · rfl
  · split
    · rfl
    · split <;> rfl

/-- The batch loop yields one slot per item. -/
theorem processBatchItems_length (offers : List Offer)
    (cache : CalculateEVRequest → Option CalculateEVResponse) (skipCache : Bool)
    (offerId : String) :
    ∀ (items : List ItemRequest) (i : ℕ),
      (processBatchItems offers cache skipCache offerId i items).length = items.length := by
  intro items
  induction items with
  | nil => intro i; rfl
  | cons it rest ih => intro i; simp [processBatchItems, ih]

/-- The `j`-th slot the batch loop produces, starting at index `i`, carries
index `i + j`. -/
theorem processBatchItems_index (offers : List Offer)
    (cache : CalculateEVRequest → Option CalculateEVResponse) (skipCache : Bool)
    (offerId : String) :
    ∀ (items : List ItemRequest) (i j : ℕ)
      (h : j < (processBatchItems offers cache skipCache offerId i items).length),
      ((processBatchItems offers cache skipCache offerId i items).get ⟨j, h⟩).index = i + j := by
  intro items
  induction items with
  | nil =>
    intro i j h
    simp [processBatchItems] at h
  | cons it rest ih =>
    intro i j h
    cases j with
    | zero =>
      simpa [processBatchItems] using processBatchItem_index offers cache skipCache offerId i it
    | succ j' =>
      have h' : j' < (processBatchItems offers cache skipCache offerId (i + 1) rest).length := by
        simpa [processBatchItems] using h
      have hidx := ih (i + 1) j' h'
      simpa [processBatchItems, Nat.add_assoc, Nat.add_comm 1 j'] using hidx

/-- The success and failure slots of a results list partition it. -/
theorem length_filter_ok_split (l : List BatchItemResult) :
    (l.filter (fun r => r.outcome.isOk)).length
      + (l.filter (fun r => ! r.outcome.isOk)).length = l.length := by
  induction l with
  | nil => rfl
  | cons a t ih =>
    by_cases h : a.outcome.isOk = true
    · simp only [List.filter_cons, h, Bool.not_true, List.length_cons]
      simp
      omega
    · have hb : a.outcome.isOk = false := by simpa using h
      simp only [List.filter_cons, hb, Bool.not_false, List.length_cons]
      simp
      omega

/-- Shape of the uniform-failure response: `n` positionally indexed slots,
all carrying the same error, zero successes. -/
theorem createAllErrors_spec (oid : String) (n : ℕ) (b : ErrorBody) :
    (createAllErrorsBatchResponse oid n b).totalItems = n ∧
    (createAllErrorsBatchResponse oid n b).successCount = 0 ∧
    (createAllErrorsBatchResponse oid n b).errorCount = n ∧
    (createAllErrorsBatchResponse oid n b).results.length = n ∧
    (∀ (j : ℕ) (h : j < (createAllErrorsBatchResponse oid n b).results.length),
      ((createAllErrorsBatchResponse oid n b).results.get ⟨j, h⟩).index = j) ∧
    (∀ r ∈ (createAllErrorsBatchResponse oid n b).results, r.outcome = .error b) := by
  refine ⟨rfl, rfl, rfl, by simp [createAllErrorsBatchResponse], ?_, ?_⟩
  · intro j h
    simp [createAllErrorsBatchResponse]
  · intro r hr
    simp only [createAllErrorsBatchResponse, List.mem_map] at hr
    obtain ⟨j, _, rfl⟩ := hr
    rfl

/-- C7: every batch response reports `totalItems` equal to the number of
request items, `successCount + errorCount = totalItems`, one result slot
per item, and the `j`-th slot of the results array carries index `j` —
results are positionally indexed to the request items in order. -/
theorem calculateEVBatch_positional (fetchResult : Result (List Offer) CalculationError)
    (cache : CalculateEVRequest → Option CalculateEVResponse) (skipCache : Bool)
    (req : BatchRequest) :
    (calculateEVBatch fetchResult cache skipCache req).totalItems = req.items.length ∧
    (calculateEVBatch fetchResult cache skipCache req).successCount
      + (calculateEVBatch fetchResult cache skipCache req).errorCount
      = (calculateEVBatch fetchResult cache skipCache req).totalItems ∧
    (calculateEVBatch fetchResult cache skipCache req).results.length = req.items.length ∧
    ∀ (j : ℕ) (h : j < (calculateEVBatch fetchResult cache skipCache req).results.length),
      ((calculateEVBatch fetchResult cache skipCache req).results.get ⟨j, h⟩).index = j := by
  cases fetchResult with
  | error e =>
    have hresp : calculateEVBatch (.error e) cache skipCache req
        = createAllErrorsBatchResponse req.offerId req.items.length ⟨e.code, e.message⟩ := rfl
    rw [hresp]
    obtain ⟨h1, h2, h3, h4, h5, _⟩ :=
      createAllErrors_spec req.offerId req.items.length ⟨e.code, e.message⟩
    exact ⟨h1, by simp [h1, h2, h3], h4, h5⟩
  | ok offers =>
    by_cases hlen : offers.length = 0
    · have hresp : calculateEVBatch (.ok offers) cache skipCache req
          = createAllErrorsBatchResponse req.offerId req.items.length
              ⟨"NOT_FOUND", "Offer not found"⟩ := by
        simp only [calculateEVBatch]
        rw [if_pos hlen]
      rw [hresp]
      obtain ⟨h1, h2, h3, h4, h5, _⟩ :=
        createAllErrors_spec req.offerId req.items.length ⟨"NOT_FOUND", "Offer not found"⟩
      exact ⟨h1, by simp [h1, h2, h3], h4, h5⟩
    · have hresp : calculateEVBatch (.ok offers) cache skipCache req
          = { offerId := req.offerId
              totalItems := req.items.length
              successCount := ((processBatchItems offers cache skipCache req.offerId 0
                req.items).filter (fun r => r.outcome.isOk)).length
              errorCount := ((processBatchItems offers cache skipCache req.offerId 0
                req.items).filter (fun r => ! r.outcome.isOk)).length
              results := processBatchItems offers cache skipCache req.offerId 0 req.items } := by
        simp only [calculateEVBatch]
        rw [if_neg hlen]
      rw [hresp]
      refine ⟨rfl, ?_, ?_, ?_⟩
      · show ((processBatchItems offers cache skipCache req.offerId 0 req.items).filter
            (fun r => r.outcome.isOk)).length
          + ((processBatchItems offers cache skipCache req.offerId 0 req.items).filter
            (fun r => ! r.outcome.isOk)).length = req.items.length
        rw [length_filter_ok_split, processBatchItems_length]
      · exact processBatchItems_length offers cache skipCache req.offerId req.items 0
      · intro j h
        have hidx := processBatchItems_index offers cache skipCache req.offerId req.items 0 j h
        simpa using hidx

/-- C8: when the shared offer fetch fails, or succeeds with an empty offer
list, the whole batch is the uniform-failure fan-out: every slot carries
the same error body, `successCount = 0`, `errorCount` is the item count,
and the response is independent of the per-item cache (no per-item
resolution is attempted). -/
theorem calculateEVBatch_uniform_fanout (fetchResult : Result (List Offer) CalculationError)
    (cache : CalculateEVRequest → Option CalculateEVResponse) (skipCache : Bool)
    (req : BatchRequest) (e : CalculationError)
    (h : fetchResult = .error e ∨ fetchResult = .ok []) :
    ∃ b : ErrorBody,
      calculateEVBatch fetchResult cache skipCache req
        = createAllErrorsBatchResponse req.offerId req.items.length b ∧
      (∀ r ∈ (calculateEVBatch fetchResult cache skipCache req).results,
        r.outcome = .error b) ∧
      (calculateEVBatch fetchResult cache skipCache req).successCount = 0 ∧
      (calculateEVBatch fetchResult cache skipCache req).errorCount = req.items.length ∧
      (∀ cache' : CalculateEVRequest → Option CalculateEVResponse,
        calculateEVBatch fetchResult cache' skipCache req
          = calculateEVBatch fetchResult cache skipCache req) := by
  rcases h with rfl | rfl
  · refine ⟨⟨e.code, e.message⟩, rfl, ?_, rfl, rfl, fun _ => rfl⟩
    exact (createAllErrors_spec req.offerId req.items.length ⟨e.code, e.message⟩).2.2.2.2.2
  · have hresp : ∀ c : CalculateEVRequest → Option CalculateEVResponse,
        calculateEVBatch (.ok []) c skipCache req
          = createAllErrorsBatchResponse req.offerId req.items.length
              ⟨"NOT_FOUND", "Offer not found"⟩ := by
      intro c
      simp only [calculateEVBatch]
      rw [if_pos (show ([] : List Offer).length = 0 from rfl)]
    obtain ⟨h1, h2, h3, h4, h5, h6⟩ :=
      createAllErrors_spec req.offerId req.items.length ⟨"NOT_FOUND", "Offer not found"⟩
    refine ⟨⟨"NOT_FOUND", "Offer not found"⟩, hresp cache, ?_, ?_, ?_, ?_⟩
    · rw [hresp cache]; exact h6
    · rw [hresp cache]; exact h2
    · rw [hresp cache]; exact h3
    · intro c'; rw [hresp c', hresp cache]

/-- Witness for C8: a failed fetch over a one-item batch. -/
theorem calculateEVBatch_uniform_fanout_witness :
    ∃ b : ErrorBody,
      calculateEVBatch (.error (CalcError "boom" "API_ERROR")) (fun _ => none) false
          ⟨"offer-1", [⟨"player-1", 25.5, .Over, "DK", ["PINNACLE"], "multiplicative", none⟩]⟩
        = createAllErrorsBatchResponse "offer-1" 1 b ∧
      (∀ r ∈ (calculateEVBatch (.error (CalcError "boom" "API_ERROR")) (fun _ => none) false
          ⟨"offer-1",
           [⟨"player-1", 25.5, .Over, "DK", ["PINNACLE"], "multiplicative", none⟩]⟩).results,
        r.outcome = .error b) ∧
      (calculateEVBatch (.error (CalcError "boom" "API_ERROR")) (fun _ => none) false
          ⟨"offer-1",
           [⟨"player-1", 25.5, .Over, "DK", ["PINNACLE"], "multiplicative",
             none⟩]⟩).successCount = 0 ∧
      (calculateEVBatch (.error (CalcError "boom" "API_ERROR")) (fun _ => none) false
          ⟨"offer-1",
           [⟨"player-1", 25.5, .Over, "DK", ["PINNACLE"], "multiplicative",
             none⟩]⟩).errorCount = 1 ∧
      (∀ cache' : CalculateEVRequest → Option CalculateEVResponse,
        calculateEVBatch (.error (CalcError "boom" "API_ERROR")) cache' false
            ⟨"offer-1", [⟨"player-1", 25.5, .Over, "DK", ["PINNACLE"], "multiplicative", none⟩]⟩
          = calculateEVBatch (.error (CalcError "boom" "API_ERROR")) (fun _ => none) false
            ⟨"offer-1",
             [⟨"player-1", 25.5, .Over, "DK", ["PINNACLE"], "multiplicative", none⟩]⟩) :=
  calculateEVBatch_uniform_fanout (.error (CalcError "boom" "API_ERROR")) (fun _ => none) false
    ⟨"offer-1", [⟨"player-1", 25.5, .Over, "DK", ["PINNACLE"], "multiplicative", none⟩]⟩
    (CalcError "boom" "API_ERROR") (Or.inl rfl)

end EV
